import Mathlib

/-!
Shallow embedding, in Lean, of `src/service6.py` (class `Service`), the
change-detection and pipeline-orchestration engine of a YouTube channel
monitor.  External collaborators (YouTube Data API, pytube, moviepy,
whisper, openai, smtplib) are modelled as oracles: functions supplied as
arguments that say what each external call would return for this run.
Side effects (files on disk, delivered emails) are threaded as explicit
state.  Python truthiness of strings (`if video_id:`) and of `None` is
modelled explicitly.
-/

namespace Service6

/-- Python string truthiness: a string is truthy iff non-empty. -/
def pyTruthyStr (s : String) : Bool := s ≠ ""

/-- A Python `dict` from `str` to `str`, as an insertion-ordered
association list with overwrite-on-assignment semantics.  Used for
`self.latest_video_ids` and for the `channel_ids` dict of
`getChannelIDs`. -/
abbrev Dict := List (String × String)

/-- `d[k]` lookup (`k in d` is `dictFind d k ≠ none`). -/
def dictFind (d : Dict) (k : String) : Option String :=
  match d with
  | [] => none
  | (k', v) :: rest => if k' = k then some v else dictFind rest k

/-- `d[k] = v` assignment: overwrite in place if present, append otherwise. -/
def dictSet (d : Dict) (k v : String) : Dict :=
  match d with
  | [] => [(k, v)]
  | (k', v') :: rest =>
      if k' = k then (k, v) :: rest else (k', v') :: dictSet rest k v

/-- Outcome of the inlined dedup decision of `check_for_new_videos`
(lines 213–220): the spec names the three cases `FirstSeen`, `Changed`,
`Unchanged`. -/
inductive CheckResult where
  | FirstSeen
  | Changed
  | Unchanged
deriving DecidableEq, Repr

/-- The dedup decision inlined in `check_for_new_videos` lines 213–220:
`if channel_id in self.latest_video_ids:` then
`if self.latest_video_ids[channel_id] != video_id:` update and trigger
(`Changed`), else nothing (`Unchanged`); `else:` record the id
(`FirstSeen`, no trigger).  Returns the outcome and the updated
`latest_video_ids` dict. -/
def checkAndUpdate (store : Dict) (channel_id video_id : String) :
    CheckResult × Dict :=
  match dictFind store channel_id with
  | some stored =>
      if stored ≠ video_id then
        (CheckResult.Changed, dictSet store channel_id video_id)
      else
        (CheckResult.Unchanged, store)
  | none => (CheckResult.FirstSeen, dictSet store channel_id video_id)

/-- Feed a sequence of latest-item observations for one channel through
the dedup decision, collecting the outcomes. -/
def runChecks (store : Dict) (channel_id : String) (obs : List String) :
    List CheckResult × Dict :=
  match obs with
  | [] => ([], store)
  | x :: rest =>
      let r := checkAndUpdate store channel_id x
      let rs := runChecks r.2 channel_id rest
      (r.1 :: rs.1, rs.2)

/-- Number of `Changed` outcomes in a list of check results. -/
def countChanged (rs : List CheckResult) : Nat :=
  rs.countP (fun r => r = CheckResult.Changed)

/-- Number of value-transitions in a sequence: positions where the
observation differs from its predecessor. -/
def transitions : List String → Nat
  | [] => 0
  | [_] => 0
  | x :: y :: rest => (if x ≠ y then 1 else 0) + transitions (y :: rest)

/-! ## Pipeline model (`download_video` … `get_transcript_of_latest_video`) -/

/-- The local filesystem, as the list of temporary artifact paths
currently present. -/
abbrev FS := List String

/-- Writing a file to the filesystem (download / audio write). -/
def fsAdd (fs : FS) (f : String) : FS := if f ∈ fs then fs else fs ++ [f]

/-- `os.remove`: delete the path. -/
def fsRemove (fs : FS) (f : String) : FS := fs.erase f

/-- Behaviour of the external collaborators for one pipeline invocation:
whether pytube's download and moviepy's audio write succeed, and what
whisper (`transcribe`, returning the `text` field of its result dict;
`none` when it raises) and openai (`summarize`; `none` when it raises)
return. -/
structure Oracle where
  downloadOk : Bool
  extractOk : Bool
  transcribeRes : Option String
  summarizeRes : Option String

/-- `Service.download_video` (lines 115–123): try to fetch the stream to
`filename` (default `'video.mp4'`); on success return the filename, on
any exception print and return `None`. -/
def download_video (o : Oracle) (video_url : String) (fs : FS)
    (filename : String := "video.mp4") : Option String × FS :=
  if o.downloadOk then (some filename, fsAdd fs filename) else (none, fs)

/-- `Service.extract_audio` (lines 125–135): write the audio track of
`video_file` to `audio_file` (default `'audio.wav'`); on success return
the audio filename, on any exception print and return `None`. -/
def extract_audio (o : Oracle) (video_file : String) (fs : FS)
    (audio_file : String := "audio.wav") : Option String × FS :=
  if o.extractOk then (some audio_file, fsAdd fs audio_file) else (none, fs)

/-- `Service.transcribe_audio_file` (lines 137–148): run whisper with a
translate task and a filler-repetition hint; return the result (a dict,
truthy whenever not `None`, whose `text` field we model directly) or
`None` on exception. -/
def transcribe_audio_file (o : Oracle) (audio_file_path : String) :
    Option String :=
  o.transcribeRes

/-- `Service.summarize_transcript` (lines 150–165): ask openai for a
summary of the transcript, returning the stripped message content, or
`None` on exception. -/
def summarize_transcript (o : Oracle) (transcript : String) :
    Option String :=
  o.summarizeRes

/-- `Service.get_transcript_of_latest_video` (lines 167–185): download,
extract audio, transcribe, `os.remove` both artifacts, then summarize;
each early-stage failure returns `(None, None)` immediately.  Returns
`(transcript, summary)` together with the filesystem after the call. -/
def get_transcript_of_latest_video (o : Oracle) (video_url : String)
    (fs : FS) : (Option String × Option String) × FS :=
  match download_video o video_url fs with
  | (none, fs₁) => ((none, none), fs₁)
  | (some video_file, fs₁) =>
      match extract_audio o video_file fs₁ with
      | (none, fs₂) => ((none, none), fs₂)
      | (some audio_file, fs₂) =>
          let transcript := transcribe_audio_file o audio_file
          let fs₃ := fsRemove fs₂ video_file
          let fs₄ := fsRemove fs₃ audio_file
          match transcript with
          | some text => ((some text, summarize_transcript o text), fs₄)
          | none => ((none, none), fs₄)

/-! ## Email notification model (`send_email_notification`) -/

/-- One email delivered through SMTP. -/
structure EmailMsg where
  recipient : String
  subject : String
  body : String
deriving DecidableEq, Repr

/-- The body string built by `send_email_notification` (lines 193–196):
title and url always; the summary block only when `if video_summary:`
is truthy (not `None` and non-empty).  The `video_transcript` argument
of `send_email_notification` is never used in the body. -/
def email_body (video_title video_url : String)
    (video_summary : Option String) : String :=
  let body := "A new video has been uploaded to the channel you subscribed to:\n\nTitle: "
      ++ video_title ++ "\nURL: " ++ video_url
  match video_summary with
  | some s => if pyTruthyStr s then body ++ "\n\nSummary:\n" ++ s else body
  | none => body

/-- Mutable state of the `Service` object plus the observable effects of
a run: the `self.latest_video_ids` dict, the temp-file system, the
emails actually delivered, and two ghost histories used only to state
properties — `attempted` records each channel id for which
`get_latest_video` was called, `observed` records each channel id for
which that call returned an item with a truthy id. -/
structure SvcState where
  latest_video_ids : Dict
  fs : FS
  emails : List EmailMsg
  attempted : List String
  observed : List String
deriving DecidableEq, Repr

/-- The state at `Service.__init__`: `self.latest_video_ids = {}`,
nothing attempted, observed, downloaded or sent. -/
def SvcState.init : SvcState :=
  { latest_video_ids := [], fs := [], emails := [], attempted := [],
    observed := [] }

/-- `Service.send_email_notification` (lines 187–208): build the body,
then try SMTP delivery; on exception print and continue (no email is
delivered, nothing else changes).  `emailOk` says whether the SMTP
session succeeds. -/
def send_email_notification (emailOk : Bool) (email_recipient : String)
    (video_title video_url : String)
    (video_transcript : Option String := none)
    (video_summary : Option String := none) (st : SvcState) : SvcState :=
  let body := email_body video_title video_url video_summary
  if emailOk then
    { st with emails := st.emails ++
        [{ recipient := email_recipient, subject := "New Video Notification",
           body := body }] }
  else st

/-! ## Poll cycle model (`get_latest_video`, `check_for_new_videos`) -/

/-- What one `youtube.search().list(...).execute()` call for a channel's
latest video does: raise an exception, return an empty `items` list, or
return a latest video with the given id and title. -/
inductive FetchRes where
  | raises
  | noItems
  | found (video_id video_title : String)

/-- `Service.get_latest_video` (lines 94–113): no `try` block, so an
exception from `request.execute()` propagates (`Except.error`);
otherwise return `(video_id, video_title, video_url)` with the url
built from the id, or `(None, None, None)` when `items` is empty. -/
def get_latest_video (fetch : String → FetchRes) (channel_id : String) :
    Except Unit (Option (String × String × String)) :=
  match fetch channel_id with
  | FetchRes.raises => Except.error ()
  | FetchRes.noItems => Except.ok none
  | FetchRes.found video_id video_title =>
      Except.ok (some (video_id, video_title,
        "https://www.youtube.com/watch?v=" ++ video_id))

/-- External behaviour during one poll cycle: the latest-video query
result per channel id, and the pipeline/SMTP oracle used when a channel
triggers. -/
structure CycleEnv where
  fetch : String → FetchRes
  pipeline : String → Oracle
  emailOk : String → Bool

/-- `Service.check_for_new_videos` (lines 210–220) over the
`channel_ids` dict: per channel, call `get_latest_video`; an exception
propagates out of the loop at once (second component `true`), leaving
the state mutated so far.  `if video_id:` guards the dedup decision
(`checkAndUpdate`, the inlined lines 214–220); only a `Changed` outcome
runs the pipeline and sends the notification. -/
def check_for_new_videos (env : CycleEnv) (email_recipient : String)
    (channel_ids : Dict) (st : SvcState) : SvcState × Bool :=
  match channel_ids with
  | [] => (st, false)
  | (_, channel_id) :: rest =>
      let st := { st with attempted := st.attempted ++ [channel_id] }
      match get_latest_video env.fetch channel_id with
      | Except.error _ => (st, true)
      | Except.ok none => check_for_new_videos env email_recipient rest st
      | Except.ok (some (video_id, video_title, video_url)) =>
          if pyTruthyStr video_id then
            let st := { st with observed := st.observed ++ [channel_id] }
            let r := checkAndUpdate st.latest_video_ids channel_id video_id
            let st := { st with latest_video_ids := r.2 }
            match r.1 with
            | CheckResult.Changed =>
                let o := env.pipeline channel_id
                let pr := get_transcript_of_latest_video o video_url st.fs
                let st := { st with fs := pr.2 }
                let st := send_email_notification (env.emailOk channel_id)
                    email_recipient video_title video_url pr.1.1 pr.1.2 st
                check_for_new_videos env email_recipient rest st
            | _ => check_for_new_videos env email_recipient rest st
          else
            check_for_new_videos env email_recipient rest st

/-! ## Bootstrap model (`getChannelIDs`, `get_Mail_On_Latest_Videos`) -/

/-- One entry of the `items` of a `search().list(type="channel")`
response: its snippet title and channel id. -/
structure SearchItem where
  title : String
  channelId : String

/-- The inner loop of `getChannelIDs` (lines 64–67): walk the response
items and take the channel id of the first item whose title matches the
queried name case-insensitively (`break`); `none` when no item
matches. -/
def resolveChannel (items : List SearchItem) (channel_name : String) :
    Option String :=
  match items with
  | [] => none
  | item :: rest =>
      if item.title.toLower == channel_name.toLower then some item.channelId
      else resolveChannel rest channel_name

/-- Loop of `getChannelIDs` with the `channel_ids` dict accumulator and
the lines printed so far: the body of the loop (lines 55–67) contains no
print/log statement, so neither branch appends to the log. -/
def getChannelIDs_go (search : String → List SearchItem) :
    List String → Dict → List String → Dict × List String
  | [], channel_ids, logs => (channel_ids, logs)
  | channel_name :: rest, channel_ids, logs =>
      match resolveChannel (search channel_name) channel_name with
      | some cid =>
          getChannelIDs_go search rest (dictSet channel_ids channel_name cid) logs
      | none => getChannelIDs_go search rest channel_ids logs

/-- `Service.getChannelIDs` (lines 53–69): resolve each name through a
channel search, recording `channel_ids[channel_name] = channelId` for
the first case-insensitive title match; names with no match are simply
not added.  Also returns everything the call printed. -/
def getChannelIDs (search : String → List SearchItem)
    (channel_names : List String) : Dict × List String :=
  getChannelIDs_go search channel_names [] []

/-- The first loop of `get_Mail_On_Latest_Videos` (lines 224–229): for
each resolved channel fetch the latest video (an exception propagates,
second component `true`); when `if video_id:` is truthy, seed
`self.latest_video_ids[channel_id] = video_id` unconditionally, run the
pipeline and send the notification. -/
def seed_and_notify (env : CycleEnv) (email_recipient : String)
    (channel_ids : Dict) (st : SvcState) : SvcState × Bool :=
  match channel_ids with
  | [] => (st, false)
  | (_, channel_id) :: rest =>
      let st := { st with attempted := st.attempted ++ [channel_id] }
      match get_latest_video env.fetch channel_id with
      | Except.error _ => (st, true)
      | Except.ok none => seed_and_notify env email_recipient rest st
      | Except.ok (some (video_id, video_title, video_url)) =>
          if pyTruthyStr video_id then
            let st := { st with observed := st.observed ++ [channel_id] }
            let seeded := dictSet st.latest_video_ids channel_id video_id
            let st := { st with latest_video_ids := seeded }
            let o := env.pipeline channel_id
            let pr := get_transcript_of_latest_video o video_url st.fs
            let st := { st with fs := pr.2 }
            let st := send_email_notification (env.emailOk channel_id)
                email_recipient video_title video_url pr.1.1 pr.1.2 st
            seed_and_notify env email_recipient rest st
          else
            seed_and_notify env email_recipient rest st

/-- The scheduler loop of `get_Mail_On_Latest_Videos` (lines 231–236),
unrolled for a finite prefix of cycles: run `check_for_new_videos` once
per cycle environment; an exception in a cycle crashes the `while True`
loop, so no later cycle runs. -/
def runCycles (email_recipient : String) (channel_ids : Dict) :
    List CycleEnv → SvcState → SvcState × Bool
  | [], st => (st, false)
  | env :: rest, st =>
      let r := check_for_new_videos env email_recipient channel_ids st
      if r.2 then (r.1, true) else runCycles email_recipient channel_ids rest r.1

/-- `Service.get_Mail_On_Latest_Videos` (lines 222–236): resolve the
channel names, seed-and-notify each resolved channel once, then poll
repeatedly (here: for the given finite list of cycle environments). -/
def get_Mail_On_Latest_Videos (search : String → List SearchItem)
    (bootEnv : CycleEnv) (cycles : List CycleEnv)
    (channel_names : List String) (email_recipient : String)
    (st : SvcState) : SvcState × Bool :=
  let channel_ids := (getChannelIDs search channel_names).1
  let r := seed_and_notify bootEnv email_recipient channel_ids st
  if r.2 then (r.1, true)
  else runCycles email_recipient channel_ids cycles r.1

/-! ## Substring containment (to state what an email body contains) -/

/-- `sub` is an initial segment of `s` (character lists). -/
def charsHavePre : List Char → List Char → Bool
  | [], _ => true
  | _ :: _, [] => false
  | a :: as, b :: bs => a = b && charsHavePre as bs

/-- `sub` occurs contiguously somewhere in `s` (character lists). -/
def charsOccur (sub : List Char) : List Char → Bool
  | [] => sub.isEmpty
  | c :: rest => charsHavePre sub (c :: rest) || charsOccur sub rest

/-- `sub` occurs contiguously in `s`, as strings. -/
def strContainsSub (s sub : String) : Bool := charsOccur sub.data s.data

/-! ## Claim-specific environments, states and characterizations -/

/-- The external behaviour refuting C3: the download succeeds and the
audio extraction fails. -/
def oracleC3cex : Oracle :=
  { downloadOk := true, extractOk := false, transcribeRes := none,
    summarizeRes := none }

/-- The external behaviour refuting C4: all stages up to transcription
succeed, the transcribed text is empty, and summarization fails. -/
def oracleC4cex : Oracle :=
  { downloadOk := true, extractOk := true, transcribeRes := some "",
    summarizeRes := none }

/-- Characterization (spec side, for comparison with the code): the
channel ids a cycle actually evaluates — every channel up to and
including the first whose latest-video query raises. -/
def attemptedUpTo (env : CycleEnv) : Dict → List String
  | [] => []
  | (_, cid) :: rest =>
      match env.fetch cid with
      | FetchRes.raises => [cid]
      | _ => cid :: attemptedUpTo env rest

/-- Characterization (spec side): a cycle aborts iff some channel's
latest-video query raises. -/
def cycleRaises (env : CycleEnv) : Dict → Bool
  | [] => false
  | (_, cid) :: rest =>
      match env.fetch cid with
      | FetchRes.raises => true
      | _ => cycleRaises env rest

/-- The external behaviour refuting C5: the query for channel `"A"`
raises, the one for `"B"` succeeds. -/
def envC5cex : CycleEnv where
  fetch := fun cid => if cid = "A" then FetchRes.raises else FetchRes.found "v" "t"
  pipeline := fun _ => { downloadOk := false, extractOk := false, transcribeRes := none, summarizeRes := none }
  emailOk := fun _ => true

/-- The cycle refuting C6: the latest item changed from the stored
`"v1"` to `"v2"`, the pipeline produced the transcript `"WXYZQ"` and no
summary, and SMTP delivery succeeds. -/
def envC6cex : CycleEnv where
  fetch := fun _ => FetchRes.found "v2" "T"
  pipeline := fun _ => { downloadOk := true, extractOk := true, transcribeRes := some "WXYZQ", summarizeRes := none }
  emailOk := fun _ => true

/-- The dedup state refuting C6: channel `"B"` stored with item `"v1"`. -/
def stC6cex : SvcState :=
  { SvcState.init with latest_video_ids := [("B", "v1")] }

/-- The directory behaviour refuting C7's "logged warning": the search
for any name returns no items at all. -/
def searchC7cex : String → List SearchItem := fun _ => []

/-- The environment for the C8 witness: the latest item is `"v2"`, the
whole pipeline fails and so does SMTP delivery. -/
def envC8wit : CycleEnv where
  fetch := fun _ => FetchRes.found "v2" "T"
  pipeline := fun _ => { downloadOk := false, extractOk := false, transcribeRes := none, summarizeRes := none }
  emailOk := fun _ => false

/-- The starting state for the C8 witness: channel `"C"` stored `"v1"`. -/
def stC8wit : SvcState :=
  { SvcState.init with latest_video_ids := [("C", "v1")] }

/-- The C9 invariant: a channel id is present in `latest_video_ids` iff
at least one item of that channel has been observed (the latest-item
query returned an item with a truthy id), at bootstrap seeding or at a
later poll. -/
def storeMatchesObserved (st : SvcState) : Prop :=
  ∀ c, dictFind st.latest_video_ids c ≠ none ↔ c ∈ st.observed

/-- The cycle environment observing `video_id` for every channel, with
an always-failing pipeline and successful delivery; used to count the
notifications the poll step triggers for one channel. -/
def obsCycleEnv (video_id : String) : CycleEnv where
  fetch := fun _ => FetchRes.found video_id "title"
  pipeline := fun _ => { downloadOk := false, extractOk := false, transcribeRes := none, summarizeRes := none }
  emailOk := fun _ => true

theorem dictFind_dictSet_self (d : Dict) (k v : String) :
    dictFind (dictSet d k v) k = some v := by
  induction d with
  | nil => simp [dictSet, dictFind]
  | cons hd tl ih =>
      obtain ⟨k', v'⟩ := hd
      by_cases h : k' = k <;> simp [dictSet, dictFind, h, ih]

theorem dictFind_dictSet_ne (d : Dict) (k k' v : String) (h : k ≠ k') :
    dictFind (dictSet d k v) k' = dictFind d k' := by
  induction d with
  | nil => simp [dictSet, dictFind, h]
  | cons hd tl ih =>
      obtain ⟨k₀, v₀⟩ := hd
      by_cases h0 : k₀ = k
      · subst h0
        simp [dictSet, dictFind, h]
      · simp [dictSet, dictFind, h0, ih]

theorem runChecks_seen (channel_id v : String) (obs : List String)
    (store : Dict) (hv : dictFind store channel_id = some v) :
    countChanged (runChecks store channel_id obs).1 = transitions (v :: obs) := by
  induction obs generalizing store v with
  | nil => simp [runChecks, countChanged, transitions]
  | cons x rest ih =>
      by_cases hx : v = x
      · subst hx
        have h1 : checkAndUpdate store channel_id v =
            (CheckResult.Unchanged, store) := by
          simp [checkAndUpdate, hv]
        simp only [runChecks, h1, transitions]
        have := ih v store hv
        simp [countChanged] at this ⊢
        simpa using this
      · have h1 : checkAndUpdate store channel_id x =
            (CheckResult.Changed, dictSet store channel_id x) := by
          simp [checkAndUpdate, hv, hx]
        simp only [runChecks, h1, transitions]
        have hv' : dictFind (dictSet store channel_id x) channel_id = some x :=
          dictFind_dictSet_self store channel_id x
        have := ih x (dictSet store channel_id x) hv'
        simp [countChanged, hx] at this ⊢
        simpa [Nat.add_comm] using this

theorem data_append (s t : String) : (s ++ t).data = s.data ++ t.data := by
  cases s
  cases t
  rfl

theorem charsHavePre_append (sub b : List Char) :
    charsHavePre sub (sub ++ b) = true := by
  induction sub with
  | nil => simp [charsHavePre]
  | cons a as ih => simp [charsHavePre, ih]

theorem charsOccur_of_pre (sub s : List Char)
    (h : charsHavePre sub s = true) : charsOccur sub s = true := by
  cases s with
  | nil =>
      cases sub with
      | nil => simp [charsOccur]
      | cons a as => simp [charsHavePre] at h
  | cons c rest => simp [charsOccur, h]

theorem charsOccur_append_left (a sub s : List Char)
    (h : charsOccur sub s = true) : charsOccur sub (a ++ s) = true := by
  induction a with
  | nil => simpa using h
  | cons c cs ih => simp [charsOccur, ih]

theorem charsOccur_here (sub b : List Char) :
    charsOccur sub (sub ++ b) = true :=
  charsOccur_of_pre _ _ (charsHavePre_append sub b)

/-! ## Field-preservation helpers -/

@[simp]
theorem send_email_latest (emailOk : Bool) (r t u : String)
    (tr sm : Option String) (st : SvcState) :
    (send_email_notification emailOk r t u tr sm st).latest_video_ids
      = st.latest_video_ids := by
  cases emailOk <;> simp [send_email_notification]

@[simp]
theorem send_email_observed (emailOk : Bool) (r t u : String)
    (tr sm : Option String) (st : SvcState) :
    (send_email_notification emailOk r t u tr sm st).observed
      = st.observed := by
  cases emailOk <;> simp [send_email_notification]

@[simp]
theorem send_email_attempted (emailOk : Bool) (r t u : String)
    (tr sm : Option String) (st : SvcState) :
    (send_email_notification emailOk r t u tr sm st).attempted
      = st.attempted := by
  cases emailOk <;> simp [send_email_notification]

/-! ## Claims -/

/-- C2 counterexample: when the stored id for channel `"c"` already
equals `"x"` (a state reached e.g. by bootstrap seeding), the first of
two identical calls returns `Unchanged`, not `Changed` and not
`FirstSeen`, refuting the claim as stated. -/
theorem C2_counterexample :
    (checkAndUpdate [("c", "x")] "c" "x").1 ≠ CheckResult.Changed ∧
    (checkAndUpdate [("c", "x")] "c" "x").1 ≠ CheckResult.FirstSeen := by
  decide

/-- C2 amended: calling the dedup check twice with the same `x` yields
`FirstSeen` first if `c` was absent, `Changed` first if the stored id
differed from `x`, and `Unchanged` first (with no mutation) if the
stored id already equalled `x`; the second call always yields
`Unchanged` and does not mutate the store. -/
theorem C2_idempotence (store : Dict) (c x : String) :
    (checkAndUpdate (checkAndUpdate store c x).2 c x).1
        = CheckResult.Unchanged ∧
    (checkAndUpdate (checkAndUpdate store c x).2 c x).2
        = (checkAndUpdate store c x).2 ∧
    (dictFind store c = none →
      (checkAndUpdate store c x).1 = CheckResult.FirstSeen) ∧
    (∀ v, dictFind store c = some v → v ≠ x →
      (checkAndUpdate store c x).1 = CheckResult.Changed) ∧
    (dictFind store c = some x →
      (checkAndUpdate store c x).1 = CheckResult.Unchanged ∧
      (checkAndUpdate store c x).2 = store) := by
  have hfind : dictFind (checkAndUpdate store c x).2 c = some x := by
    unfold checkAndUpdate
    cases h : dictFind store c with
    | none => simp [dictFind_dictSet_self]
    | some v =>
        by_cases hv : v = x
        · simp [hv, h]
        · simp [hv, dictFind_dictSet_self]
  have hsecond : checkAndUpdate (checkAndUpdate store c x).2 c x
      = (CheckResult.Unchanged, (checkAndUpdate store c x).2) := by
    generalize hst : (checkAndUpdate store c x).2 = st2 at hfind ⊢
    simp [checkAndUpdate, hfind]
  refine ⟨by rw [hsecond], by rw [hsecond], ?_, ?_, ?_⟩
  · intro h
    simp [checkAndUpdate, h]
  · intro v hv hne
    simp [checkAndUpdate, hv, hne]
  · intro h
    simp [checkAndUpdate, h]

/-- C2 witness: concrete instances of the amended statement — from the
state where `"c"` stores `"y"`, checking `"x"` twice gives `Changed`
then `Unchanged`. -/
theorem C2_idempotence_witness :
    (checkAndUpdate [("c", "y")] "c" "x").1 = CheckResult.Changed ∧
    (checkAndUpdate (checkAndUpdate [("c", "y")] "c" "x").2 "c" "x").1
      = CheckResult.Unchanged :=
  ⟨(C2_idempotence [("c", "y")] "c" "x").2.2.2.1 "y" (by decide) (by decide),
   (C2_idempotence [("c", "y")] "c" "x").1⟩

/-- C3 counterexample: when the extract stage fails,
`get_transcript_of_latest_video` returns before either `os.remove`
(lines 178–179) runs, so the already-fetched `video.mp4` persists after
the invocation returns, refuting the cleanup claim. -/
theorem C3_counterexample :
    (get_transcript_of_latest_video oracleC3cex "u" []).2 = ["video.mp4"] ∧
    (get_transcript_of_latest_video oracleC3cex "u" []).2 ≠ [] := by
  decide

/-- C3 amended: on every exit path except an extract-stage failure, no
temporary artifact persists after the invocation returns; when the
extract stage fails after a successful download, the fetched media file
`video.mp4` is not released. -/
theorem C3_cleanup (o : Oracle) (video_url : String) :
    (get_transcript_of_latest_video o video_url []).2
      = if o.downloadOk && !o.extractOk then ["video.mp4"] else [] := by
  rcases o with ⟨d, e, t, s⟩
  cases d <;> cases e <;> cases t <;>
    simp [get_transcript_of_latest_video, download_video, extract_audio,
      transcribe_audio_file, fsAdd, fsRemove]

/-- C4 counterexample: fetch, extract and transcribe succeed (whisper
returns its result dict, whose text is empty) and summarize fails; the
pipeline returns `(some "", none)` — the transcript in the result is
empty, refuting "the non-empty transcribed text". -/
theorem C4_counterexample :
    (get_transcript_of_latest_video oracleC4cex "u" []).1 = (some "", none) ∧
    ∀ t, (get_transcript_of_latest_video oracleC4cex "u" []).1.1 = some t →
      t = "" := by
  refine ⟨rfl, ?_⟩
  intro t h
  have h0 : (get_transcript_of_latest_video oracleC4cex "u" []).1.1
      = some "" := rfl
  rw [h0] at h
  exact (Option.some.inj h).symm

/-- C4 amended: when fetch, extract and transcribe succeed and
summarize fails, the result is exactly `(transcribed text, None)` — so
the transcript is non-empty precisely when the transcribed text is —
and any earlier-stage failure yields `(None, None)`. -/
theorem C4_transcript_without_summary (o : Oracle) (video_url : String) :
    (∀ t, o.downloadOk = true → o.extractOk = true →
      o.transcribeRes = some t → o.summarizeRes = none →
      (get_transcript_of_latest_video o video_url []).1 = (some t, none)) ∧
    ((o.downloadOk = false ∨ o.extractOk = false ∨ o.transcribeRes = none) →
      (get_transcript_of_latest_video o video_url []).1 = (none, none)) := by
  constructor
  · intro t hd he ht hs
    simp [get_transcript_of_latest_video, download_video, extract_audio,
      transcribe_audio_file, summarize_transcript, hd, he, ht, hs]
  · rcases o with ⟨d, e, tr, s⟩
    intro h
    cases d <;> cases e <;> cases tr <;>
      simp_all [get_transcript_of_latest_video, download_video, extract_audio,
        transcribe_audio_file, summarize_transcript]

/-- C4 witness: the amended statement at concrete inputs — a summarize
failure after a successful transcription of `"hello"` yields
`(some "hello", none)`, and a download failure yields `(none, none)`. -/
theorem C4_transcript_without_summary_witness :
    (get_transcript_of_latest_video
      { downloadOk := true, extractOk := true, transcribeRes := some "hello",
        summarizeRes := none } "u" []).1 = (some "hello", none) ∧
    (get_transcript_of_latest_video
      { downloadOk := false, extractOk := false, transcribeRes := none,
        summarizeRes := none } "u" []).1 = (none, none) :=
  ⟨(C4_transcript_without_summary _ "u").1 "hello" rfl rfl rfl rfl,
   (C4_transcript_without_summary _ "u").2 (Or.inl rfl)⟩

/-- C5 counterexample: with two channels `A`, `B` where fetching `A`'s
latest item raises, the cycle aborts (`true`) and `B` is never
evaluated (`attempted` is exactly `["A"]`), refuting containment. -/
theorem C5_counterexample :
    (check_for_new_videos envC5cex "r" [("a", "A"), ("b", "B")]
        SvcState.init).2 = true ∧
    (check_for_new_videos envC5cex "r" [("a", "A"), ("b", "B")]
        SvcState.init).1.attempted = ["A"] ∧
    "B" ∉ (check_for_new_videos envC5cex "r" [("a", "A"), ("b", "B")]
        SvcState.init).1.attempted := by
  decide

/-- C5 amended: a failure fetching one channel's latest item is not
contained — it propagates out of `check_for_new_videos`, aborting the
cycle: the channels evaluated are exactly those up to and including the
first failing one, so the remaining channels are not evaluated in that
cycle.  (Only a successful query returning no item is skipped with the
cycle continuing.) -/
theorem C5_fetch_failure_aborts (env : CycleEnv) (email_recipient : String)
    (channel_ids : Dict) (st : SvcState) :
    (check_for_new_videos env email_recipient channel_ids st).2
      = cycleRaises env channel_ids ∧
    (check_for_new_videos env email_recipient channel_ids st).1.attempted
      = st.attempted ++ attemptedUpTo env channel_ids := by
  induction channel_ids generalizing st with
  | nil => simp [check_for_new_videos, cycleRaises, attemptedUpTo]
  | cons hd rest ih =>
      obtain ⟨name, cid⟩ := hd
      cases hf : env.fetch cid with
      | raises =>
          simp [check_for_new_videos, get_latest_video, hf, cycleRaises,
            attemptedUpTo]
      | noItems =>
          have h2 := ih { st with attempted := st.attempted ++ [cid] }
          simp [check_for_new_videos, get_latest_video, hf, cycleRaises,
            attemptedUpTo, h2]
      | found vid title =>
          cases hv : pyTruthyStr vid with
          | false =>
              have h2 := ih { st with attempted := st.attempted ++ [cid] }
              simp [check_for_new_videos, get_latest_video, hf, hv,
                cycleRaises, attemptedUpTo, h2]
          | true =>
              simp only [check_for_new_videos, get_latest_video, hf, hv,
                if_true]
              rcases hcu : checkAndUpdate st.latest_video_ids cid vid
                with ⟨res, store2⟩
              cases res <;>
                simp only [hcu] <;>
                constructor <;>
                first
                | (rw [(ih _).1]; simp [cycleRaises, hf])
                | (rw [(ih _).2]; simp [attemptedUpTo, hf])

theorem str_append_assoc (a b c : String) : a ++ b ++ c = a ++ (b ++ c) := by
  cases a with
  | mk la =>
      cases b with
      | mk lb =>
          cases c with
          | mk lc => exact congrArg String.mk (List.append_assoc la lb lc)

theorem charsHavePre_mono (sub x y : List Char)
    (h : charsHavePre sub x = true) : charsHavePre sub (x ++ y) = true := by
  induction sub generalizing x with
  | nil => simp [charsHavePre]
  | cons a as ih =>
      cases x with
      | nil => simp [charsHavePre] at h
      | cons b bs =>
          simp [charsHavePre] at h ⊢
          exact ⟨h.1, ih bs h.2⟩

theorem charsOccur_append_right (sub x y : List Char)
    (h : charsOccur sub x = true) : charsOccur sub (x ++ y) = true := by
  induction x with
  | nil =>
      cases sub with
      | nil => cases y <;> simp [charsOccur, charsHavePre]
      | cons a as => simp [charsOccur, List.isEmpty] at h
  | cons c rest ih =>
      simp only [charsOccur, Bool.or_eq_true] at h ⊢
      rcases h with h | h
      · exact Or.inl (charsHavePre_mono _ _ _ h)
      · exact Or.inr (ih h)

theorem strContainsSub_parts (a sub b : String) :
    strContainsSub (a ++ sub ++ b) sub = true := by
  unfold strContainsSub
  rw [data_append, data_append, List.append_assoc]
  exact charsOccur_append_left _ _ _ (charsOccur_here _ _)

theorem strContainsSub_end (a sub : String) :
    strContainsSub (a ++ sub) sub = true := by
  unfold strContainsSub
  rw [data_append]
  exact charsOccur_append_left _ _ _
    (by simpa using charsOccur_here sub.data [])

theorem strContainsSub_append_right (s t sub : String)
    (h : strContainsSub s sub = true) :
    strContainsSub (s ++ t) sub = true := by
  unfold strContainsSub at h ⊢
  rw [data_append]
  exact charsOccur_append_right _ _ _ h

/-- C6 counterexample: a detected new item triggers a notification
while a transcript (`"WXYZQ"`) is available, yet the delivered body
does not contain the transcript anywhere — `send_email_notification`
never uses its `video_transcript` argument — refuting the claim's
"transcript excerpt when a transcript is available". -/
theorem C6_counterexample :
    (check_for_new_videos envC6cex "r" [("b", "B")] stC6cex).1.emails
      = [{ recipient := "r", subject := "New Video Notification",
           body := email_body "T" "https://www.youtube.com/watch?v=v2" none }] ∧
    strContainsSub (email_body "T" "https://www.youtube.com/watch?v=v2" none)
      "WXYZQ" = false := by
  decide

/-- C6 amended: the notification body always contains the item's title
and url, and contains the summary exactly when one is available
(truthy); the transcript is never included — the body is independent of
the `video_transcript` argument. -/
theorem C6_notification_body (emailOk : Bool)
    (email_recipient video_title video_url : String)
    (video_transcript other_transcript video_summary_o : Option String)
    (st : SvcState) :
    send_email_notification emailOk email_recipient video_title video_url
        video_transcript video_summary_o st
      = send_email_notification emailOk email_recipient video_title video_url
        other_transcript video_summary_o st ∧
    strContainsSub (email_body video_title video_url video_summary_o)
      video_title = true ∧
    strContainsSub (email_body video_title video_url video_summary_o)
      video_url = true ∧
    (∀ s, video_summary_o = some s → pyTruthyStr s = true →
      strContainsSub (email_body video_title video_url video_summary_o) s
        = true) := by
  have hbase_title : ∀ tail : String,
      strContainsSub ("A new video has been uploaded to the channel you subscribed to:\n\nTitle: "
        ++ video_title ++ "\nURL: " ++ video_url ++ tail) video_title = true := by
    intro tail
    rw [str_append_assoc, str_append_assoc]
    exact strContainsSub_parts _ video_title _
  have hbase_url : ∀ tail : String,
      strContainsSub ("A new video has been uploaded to the channel you subscribed to:\n\nTitle: "
        ++ video_title ++ "\nURL: " ++ video_url ++ tail) video_url = true := by
    intro tail
    exact strContainsSub_parts _ video_url tail
  refine ⟨rfl, ?_, ?_, ?_⟩
  · cases video_summary_o with
    | none =>
        have h := hbase_title ""
        rw [show (("A new video has been uploaded to the channel you subscribed to:\n\nTitle: "
          ++ video_title ++ "\nURL: " ++ video_url) ++ "" : String)
            = "A new video has been uploaded to the channel you subscribed to:\n\nTitle: "
          ++ video_title ++ "\nURL: " ++ video_url from
            congrArg String.mk (by simp [data_append])] at h
        simpa [email_body] using h
    | some s =>
        by_cases hs : pyTruthyStr s = true
        · have h := strContainsSub_append_right _ s video_title
            (strContainsSub_append_right _ "\n\nSummary:\n" video_title
              (by
                have h := hbase_title ""
                rw [show (("A new video has been uploaded to the channel you subscribed to:\n\nTitle: "
                  ++ video_title ++ "\nURL: " ++ video_url) ++ "" : String)
                    = "A new video has been uploaded to the channel you subscribed to:\n\nTitle: "
                  ++ video_title ++ "\nURL: " ++ video_url from
                    congrArg String.mk (by simp [data_append])] at h
                exact h))
          simpa [email_body, hs] using h
        · have h := hbase_title ""
          rw [show (("A new video has been uploaded to the channel you subscribed to:\n\nTitle: "
            ++ video_title ++ "\nURL: " ++ video_url) ++ "" : String)
              = "A new video has been uploaded to the channel you subscribed to:\n\nTitle: "
            ++ video_title ++ "\nURL: " ++ video_url from
              congrArg String.mk (by simp [data_append])] at h
          simpa [email_body, hs] using h
  · cases video_summary_o with
    | none =>
        have h := hbase_url ""
        rw [show (("A new video has been uploaded to the channel you subscribed to:\n\nTitle: "
          ++ video_title ++ "\nURL: " ++ video_url) ++ "" : String)
            = "A new video has been uploaded to the channel you subscribed to:\n\nTitle: "
          ++ video_title ++ "\nURL: " ++ video_url from
            congrArg String.mk (by simp [data_append])] at h
        simpa [email_body] using h
    | some s =>
        by_cases hs : pyTruthyStr s = true
        · have h := strContainsSub_append_right _ s video_url
            (strContainsSub_append_right _ "\n\nSummary:\n" video_url
              (by
                have h := hbase_url ""
                rw [show (("A new video has been uploaded to the channel you subscribed to:\n\nTitle: "
                  ++ video_title ++ "\nURL: " ++ video_url) ++ "" : String)
                    = "A new video has been uploaded to the channel you subscribed to:\n\nTitle: "
                  ++ video_title ++ "\nURL: " ++ video_url from
                    congrArg String.mk (by simp [data_append])] at h
                exact h))
          simpa [email_body, hs] using h
        · have h := hbase_url ""
          rw [show (("A new video has been uploaded to the channel you subscribed to:\n\nTitle: "
            ++ video_title ++ "\nURL: " ++ video_url) ++ "" : String)
              = "A new video has been uploaded to the channel you subscribed to:\n\nTitle: "
            ++ video_title ++ "\nURL: " ++ video_url from
              congrArg String.mk (by simp [data_append])] at h
          simpa [email_body, hs] using h
  · intro s hsm hs
    subst hsm
    have h := strContainsSub_end
      ("A new video has been uploaded to the channel you subscribed to:\n\nTitle: "
        ++ video_title ++ "\nURL: " ++ video_url ++ "\n\nSummary:\n") s
    simpa [email_body, hs] using h

/-- C6 witness: the amended statement at concrete inputs — a body with
a truthy summary contains the title, the url and the summary. -/
theorem C6_notification_body_witness :
    strContainsSub (email_body "T" "U" (some "S")) "T" = true ∧
    strContainsSub (email_body "T" "U" (some "S")) "U" = true ∧
    strContainsSub (email_body "T" "U" (some "S")) "S" = true :=
  ⟨(C6_notification_body true "r" "T" "U" none none (some "S")
      SvcState.init).2.1,
   (C6_notification_body true "r" "T" "U" none none (some "S")
      SvcState.init).2.2.1,
   (C6_notification_body true "r" "T" "U" none none (some "S")
      SvcState.init).2.2.2 "S" rfl (by decide)⟩

theorem getChannelIDs_go_logs (search : String → List SearchItem)
    (names : List String) (acc : Dict) (logs : List String) :
    (getChannelIDs_go search names acc logs).2 = logs := by
  induction names generalizing acc with
  | nil => rfl
  | cons n rest ih =>
      cases h : resolveChannel (search n) n <;>
        simp [getChannelIDs_go, h, ih]

theorem getChannelIDs_go_find (search : String → List SearchItem)
    (names : List String) (acc : Dict) (logs : List String) (n : String) :
    dictFind (getChannelIDs_go search names acc logs).1 n
      = if n ∈ names then
          (match resolveChannel (search n) n with
            | some cid => some cid
            | none => dictFind acc n)
        else dictFind acc n := by
  induction names generalizing acc with
  | nil => simp [getChannelIDs_go]
  | cons m rest ih =>
      by_cases hmn : n = m
      · subst hmn
        cases hr : resolveChannel (search n) n with
        | none => simp [getChannelIDs_go, hr, ih, List.mem_cons]
        | some cid =>
            have hfind : dictFind (dictSet acc n cid) n = some cid :=
              dictFind_dictSet_self acc n cid
            by_cases hmem : n ∈ rest <;>
              simp [getChannelIDs_go, hr, ih, hfind, hmem, List.mem_cons]
      · cases hr : resolveChannel (search m) m with
        | none =>
            simp [getChannelIDs_go, hr, ih, List.mem_cons, hmn]
        | some cid =>
            have hne : dictFind (dictSet acc m cid) n = dictFind acc n :=
              dictFind_dictSet_ne acc m n cid (fun h => hmn h.symm)
            simp [getChannelIDs_go, hr, ih, hne, List.mem_cons, hmn]

/-- C7 counterexample: the name `"ghost"` does not resolve; it is
dropped from the result, but nothing whatsoever is printed — the log
component is empty, refuting "dropped with a logged warning". -/
theorem C7_counterexample :
    (getChannelIDs searchC7cex ["ghost"]).1 = [] ∧
    (getChannelIDs searchC7cex ["ghost"]).2 = [] := by
  decide

/-- C7 amended: the result maps exactly the names that resolve — a
queried name is bound to the channel id of the first search item whose
title matches it case-insensitively, and absent otherwise — unresolved
names are dropped silently (nothing is logged) and the run is not
aborted; monitoring then proceeds with the resolved channels only
(`get_Mail_On_Latest_Videos` uses the returned dict). -/
theorem C7_bootstrap_resolution (search : String → List SearchItem)
    (channel_names : List String) :
    (getChannelIDs search channel_names).2 = [] ∧
    ∀ n, dictFind (getChannelIDs search channel_names).1 n
        = if n ∈ channel_names then resolveChannel (search n) n else none := by
  constructor
  · exact getChannelIDs_go_logs search channel_names [] []
  · intro n
    have h := getChannelIDs_go_find search channel_names [] [] n
    unfold getChannelIDs
    rw [h]
    cases hr : resolveChannel (search n) n <;> simp [dictFind, hr]

/-- C8: when a polled channel's latest item id is truthy and differs
from the stored id, the dedup store is updated to the new id on line
216, before lines 217–218 run the pipeline and the notification — the
final store holds the new id for every pipeline oracle and every SMTP
outcome (`env.pipeline` and `env.emailOk` are universally quantified),
and the cycle completes without raising. -/
theorem C8_store_update_independent (env : CycleEnv)
    (email_recipient name channel_id video_id video_title old : String)
    (st : SvcState)
    (hf : env.fetch channel_id = FetchRes.found video_id video_title)
    (hv : pyTruthyStr video_id = true)
    (hold : dictFind st.latest_video_ids channel_id = some old)
    (hne : old ≠ video_id) :
    dictFind (check_for_new_videos env email_recipient
        [(name, channel_id)] st).1.latest_video_ids channel_id
      = some video_id ∧
    (check_for_new_videos env email_recipient [(name, channel_id)] st).2
      = false := by
  have hcu : checkAndUpdate st.latest_video_ids channel_id video_id
      = (CheckResult.Changed, dictSet st.latest_video_ids channel_id video_id) := by
    simp [checkAndUpdate, hold, hne]
  simp [check_for_new_videos, get_latest_video, hf, hv, hcu,
    dictFind_dictSet_self]

/-- C8 witness: even with a fully failing pipeline and failing email
delivery, the store ends up holding the new id `"v2"`. -/
theorem C8_store_update_independent_witness :
    dictFind (check_for_new_videos envC8wit "r" [("c", "C")]
        stC8wit).1.latest_video_ids "C" = some "v2" ∧
    (check_for_new_videos envC8wit "r" [("c", "C")] stC8wit).2 = false :=
  C8_store_update_independent envC8wit "r" "c" "C" "v2" "T" "v1" stC8wit
    rfl (by decide) (by decide) (by decide)

theorem checkAndUpdate_find_self (store : Dict) (c x : String) :
    dictFind (checkAndUpdate store c x).2 c = some x := by
  unfold checkAndUpdate
  cases h : dictFind store c with
  | none => simp [dictFind_dictSet_self]
  | some v =>
      by_cases hv : v = x
      · simp [hv, h]
      · simp [hv, dictFind_dictSet_self]

theorem checkAndUpdate_find_ne (store : Dict) (c x c' : String)
    (h : c ≠ c') :
    dictFind (checkAndUpdate store c x).2 c' = dictFind store c' := by
  unfold checkAndUpdate
  cases hf : dictFind store c with
  | none => simp [dictFind_dictSet_ne _ _ _ _ h]
  | some v =>
      by_cases hv : v = x
      · simp [hv]
      · simp [hv, dictFind_dictSet_ne _ _ _ _ h]

theorem inv_step_check (store : Dict) (ob : List String) (cid vid : String)
    (h : ∀ c, dictFind store c ≠ none ↔ c ∈ ob) :
    ∀ c, dictFind (checkAndUpdate store cid vid).2 c ≠ none
      ↔ c ∈ ob ++ [cid] := by
  intro c
  by_cases hc : c = cid
  · subst hc
    simp [checkAndUpdate_find_self, List.mem_append]
  · rw [checkAndUpdate_find_ne store cid vid c (fun hh => hc hh.symm)]
    simp only [List.mem_append, List.mem_singleton, hc, or_false]
    exact h c

theorem inv_step_seed (store : Dict) (ob : List String) (cid vid : String)
    (h : ∀ c, dictFind store c ≠ none ↔ c ∈ ob) :
    ∀ c, dictFind (dictSet store cid vid) c ≠ none ↔ c ∈ ob ++ [cid] := by
  intro c
  by_cases hc : c = cid
  · subst hc
    simp [dictFind_dictSet_self, List.mem_append]
  · rw [dictFind_dictSet_ne store cid c vid (fun hh => hc hh.symm)]
    simp only [List.mem_append, List.mem_singleton, hc, or_false]
    exact h c

theorem check_preserves_inv (env : CycleEnv) (r : String)
    (channel_ids : Dict) (st : SvcState) (h : storeMatchesObserved st) :
    storeMatchesObserved (check_for_new_videos env r channel_ids st).1 := by
  induction channel_ids generalizing st with
  | nil => simpa [check_for_new_videos] using h
  | cons hd rest ih =>
      obtain ⟨name, cid⟩ := hd
      cases hf : env.fetch cid with
      | raises =>
          simp only [check_for_new_videos, get_latest_video, hf]
          intro c
          simpa using h c
      | noItems =>
          simp only [check_for_new_videos, get_latest_video, hf]
          exact ih _ (fun c => by simpa using h c)
      | found vid title =>
          cases hv : pyTruthyStr vid with
          | false =>
              simp only [check_for_new_videos, get_latest_video, hf, hv,
                Bool.false_eq_true, if_false]
              exact ih _ (fun c => by simpa using h c)
          | true =>
              simp only [check_for_new_videos, get_latest_video, hf, hv,
                if_true]
              have hstep := inv_step_check st.latest_video_ids st.observed
                cid vid h
              rcases hcu : checkAndUpdate st.latest_video_ids cid vid
                with ⟨res, store2⟩
              rw [hcu] at hstep
              cases res <;> simp only [hcu] <;>
                exact ih _ (fun c => by simpa using hstep c)

theorem seed_preserves_inv (env : CycleEnv) (r : String)
    (channel_ids : Dict) (st : SvcState) (h : storeMatchesObserved st) :
    storeMatchesObserved (seed_and_notify env r channel_ids st).1 := by
  induction channel_ids generalizing st with
  | nil => simpa [seed_and_notify] using h
  | cons hd rest ih =>
      obtain ⟨name, cid⟩ := hd
      cases hf : env.fetch cid with
      | raises =>
          simp only [seed_and_notify, get_latest_video, hf]
          intro c
          simpa using h c
      | noItems =>
          simp only [seed_and_notify, get_latest_video, hf]
          exact ih _ (fun c => by simpa using h c)
      | found vid title =>
          cases hv : pyTruthyStr vid with
          | false =>
              simp only [seed_and_notify, get_latest_video, hf, hv,
                Bool.false_eq_true, if_false]
              exact ih _ (fun c => by simpa using h c)
          | true =>
              simp only [seed_and_notify, get_latest_video, hf, hv, if_true]
              have hstep := inv_step_seed st.latest_video_ids st.observed
                cid vid h
              exact ih _ (fun c => by simpa using hstep c)

theorem runCycles_preserves_inv (r : String) (channel_ids : Dict)
    (cycles : List CycleEnv) (st : SvcState) (h : storeMatchesObserved st) :
    storeMatchesObserved (runCycles r channel_ids cycles st).1 := by
  induction cycles generalizing st with
  | nil => simpa [runCycles] using h
  | cons env rest ih =>
      have h1 := check_preserves_inv env r channel_ids st h
      cases hb : (check_for_new_videos env r channel_ids st).2 <;>
        simp only [runCycles, hb, Bool.false_eq_true, if_false, if_true]
      · exact ih _ h1
      · exact h1

/-- C9: at every state reachable from `Service.__init__` through
bootstrap seeding and any finite number of poll cycles — whether they
completed or aborted — a channel id is present in `latest_video_ids`
iff at least one item of that channel was observed (its latest-item
query returned an item passing the `if video_id:` truthiness guard), at
seeding or at a later poll; channels whose queries never returned such
an item are absent from the map. -/
theorem C9_presence_iff_observed (search : String → List SearchItem)
    (bootEnv : CycleEnv) (cycles : List CycleEnv)
    (channel_names : List String) (email_recipient : String) (c : String) :
    dictFind (get_Mail_On_Latest_Videos search bootEnv cycles channel_names
        email_recipient SvcState.init).1.latest_video_ids c ≠ none
      ↔ c ∈ (get_Mail_On_Latest_Videos search bootEnv cycles channel_names
        email_recipient SvcState.init).1.observed := by
  have hinit : storeMatchesObserved SvcState.init := by
    intro c
    simp [SvcState.init, dictFind]
  have h1 := seed_preserves_inv bootEnv email_recipient
    (getChannelIDs search channel_names).1 SvcState.init hinit
  cases hb : (seed_and_notify bootEnv email_recipient
      (getChannelIDs search channel_names).1 SvcState.init).2 <;>
    simp only [get_Mail_On_Latest_Videos, hb, Bool.false_eq_true,
      if_false, if_true]
  · exact runCycles_preserves_inv email_recipient
      (getChannelIDs search channel_names).1 cycles _ h1 c
  · exact h1 c

/-- C10: the fetched media artifact is always written to the fixed
default path `'video.mp4'` and the extracted audio to `'audio.wav'`
(the default parameters, which `get_transcript_of_latest_video` never
overrides); the paths returned on success are these constants,
independent of the item url — so two pipeline runs never use distinct
artifact paths (runs on different urls behave identically on the
filesystem). -/
theorem C10_fixed_artifact_paths (o : Oracle)
    (video_url other_url : String) (fs : FS) :
    (download_video o video_url fs).1
      = (if o.downloadOk then some "video.mp4" else none) ∧
    (download_video o video_url fs).2
      = (if o.downloadOk then fsAdd fs "video.mp4" else fs) ∧
    (∀ video_file, (extract_audio o video_file fs).1
      = (if o.extractOk then some "audio.wav" else none)) ∧
    (∀ video_file, (extract_audio o video_file fs).2
      = (if o.extractOk then fsAdd fs "audio.wav" else fs)) ∧
    download_video o video_url fs = download_video o other_url fs ∧
    get_transcript_of_latest_video o video_url fs
      = get_transcript_of_latest_video o other_url fs := by
  rcases o with ⟨d, e, t, s⟩
  cases d <;> cases e <;>
    simp [download_video, extract_audio, get_transcript_of_latest_video,
      transcribe_audio_file, summarize_transcript]

theorem cycles_email_count (r name cid v : String) (obs : List String)
    (st : SvcState) (hv : dictFind st.latest_video_ids cid = some v)
    (hobs : ∀ x ∈ obs, pyTruthyStr x = true) :
    (runCycles r [(name, cid)] (obs.map obsCycleEnv) st).1.emails.length
      = st.emails.length + transitions (v :: obs) := by
  induction obs generalizing st v with
  | nil => simp [runCycles, transitions]
  | cons x rest ih =>
      have hx : pyTruthyStr x = true := hobs x (List.mem_cons_self x rest)
      have hrest : ∀ y ∈ rest, pyTruthyStr y = true :=
        fun y hy => hobs y (List.mem_cons_of_mem x hy)
      by_cases hvx : v = x
      · subst hvx
        have hcu : checkAndUpdate st.latest_video_ids cid v
            = (CheckResult.Unchanged, st.latest_video_ids) := by
          simp [checkAndUpdate, hv]
        have hstep : check_for_new_videos (obsCycleEnv v) r [(name, cid)] st
            = ({ st with attempted := st.attempted ++ [cid], observed := st.observed ++ [cid] }, false) := by
          simp [check_for_new_videos, get_latest_video, obsCycleEnv, hx, hcu]
        have h2 := ih v { st with attempted := st.attempted ++ [cid], observed := st.observed ++ [cid] } hv hrest
        simp only [List.map_cons, runCycles, hstep, Bool.false_eq_true,
          if_false] at h2 ⊢
        simpa [transitions] using h2
      · have hcu : checkAndUpdate st.latest_video_ids cid x
            = (CheckResult.Changed, dictSet st.latest_video_ids cid x) := by
          simp [checkAndUpdate, hv, hvx]
        have hfind : dictFind (check_for_new_videos (obsCycleEnv x) r
            [(name, cid)] st).1.latest_video_ids cid = some x := by
          simp [check_for_new_videos, get_latest_video, obsCycleEnv, hx, hcu,
            dictFind_dictSet_self]
        have hemails : (check_for_new_videos (obsCycleEnv x) r
            [(name, cid)] st).1.emails.length = st.emails.length + 1 := by
          simp [check_for_new_videos, get_latest_video, obsCycleEnv, hx,
            hcu, send_email_notification]
        have hfalse : (check_for_new_videos (obsCycleEnv x) r
            [(name, cid)] st).2 = false := by
          simp [check_for_new_videos, get_latest_video, obsCycleEnv, hx, hcu]
        have h2 := ih x (check_for_new_videos (obsCycleEnv x) r
            [(name, cid)] st).1 hfind hrest
        simp only [List.map_cons, runCycles, hfalse, Bool.false_eq_true,
          if_false]
        rw [h2, hemails]
        simp [transitions, hvx]
        omega

/-- C1: for a fixed sequence of latest-item observations for a single
channel fed through the poll step (`check_for_new_videos`), starting
with the channel absent, the number of outcomes that trigger a pipeline
run and notification — the `Changed` results — equals the number of
distinct value-transitions in the sequence, not the number of
observations; concretely, polling one channel through cycles whose
observations are `obs` delivers exactly `transitions obs`
notifications. -/
theorem C1_at_most_one_trigger (channel_id : String) (obs : List String) :
    countChanged (runChecks [] channel_id obs).1 = transitions obs ∧
    (∀ name email_recipient, (∀ x ∈ obs, pyTruthyStr x = true) →
      (runCycles email_recipient [(name, channel_id)] (obs.map obsCycleEnv)
        SvcState.init).1.emails.length = transitions obs) := by
  constructor
  · cases obs with
    | nil => simp [runChecks, countChanged, transitions]
    | cons x rest =>
        have h1 : checkAndUpdate [] channel_id x
            = (CheckResult.FirstSeen, dictSet [] channel_id x) := by
          simp [checkAndUpdate, dictFind]
        have hv : dictFind (dictSet [] channel_id x) channel_id = some x :=
          dictFind_dictSet_self [] channel_id x
        have h2 := runChecks_seen channel_id x rest (dictSet [] channel_id x) hv
        simp only [runChecks, h1]
        simp [countChanged] at h2 ⊢
        simpa using h2
  · intro name email_recipient hobs
    cases obs with
    | nil => simp [runCycles, SvcState.init, transitions]
    | cons x rest =>
        have hx : pyTruthyStr x = true := hobs x (List.mem_cons_self x rest)
        have hrest : ∀ y ∈ rest, pyTruthyStr y = true :=
          fun y hy => hobs y (List.mem_cons_of_mem x hy)
        have hcu : checkAndUpdate ([] : Dict) channel_id x
            = (CheckResult.FirstSeen, [(channel_id, x)]) := by
          simp [checkAndUpdate, dictFind, dictSet]
        have hstep : check_for_new_videos (obsCycleEnv x) email_recipient
            [(name, channel_id)] SvcState.init
            = ({ latest_video_ids := [(channel_id, x)], fs := [], emails := [], attempted := [channel_id], observed := [channel_id] }, false) := by
          simp [check_for_new_videos, get_latest_video, obsCycleEnv, hx, hcu,
            SvcState.init]
        have h2 := cycles_email_count email_recipient name channel_id x rest
          { latest_video_ids := [(channel_id, x)], fs := [], emails := [], attempted := [channel_id], observed := [channel_id] }
          (by simp [dictFind]) hrest
        simp only [List.map_cons, runCycles, hstep, Bool.false_eq_true,
          if_false]
        simpa [transitions] using h2

/-- C1 witness: the sequence `["a", "a", "b"]` has one transition; fed
through the dedup decision it yields one `Changed`, and polled through
three cycles it delivers exactly one notification. -/
theorem C1_at_most_one_trigger_witness :
    countChanged (runChecks [] "C" ["a", "a", "b"]).1
      = transitions ["a", "a", "b"] ∧
    (runCycles "r" [("n", "C")] (["a", "a", "b"].map obsCycleEnv)
      SvcState.init).1.emails.length = transitions ["a", "a", "b"] :=
  ⟨(C1_at_most_one_trigger "C" ["a", "a", "b"]).1,
   (C1_at_most_one_trigger "C" ["a", "a", "b"]).2 "n" "r" (by decide)⟩

end Service6
